import Mathlib

/-!
Shallow embedding of the inventory-management backend
(`src/models.py`, `src/schemas.py`, `src/crud.py`,
`src/analytics_service.py`, `src/repo/analytics_repo.py`).

Python `int` is modelled as `Int`, `float` monetary amounts as `Rat`
(the aggregation claims are about which rows are combined, not about
floating-point rounding), `Optional[T]` as `Option T`, a `datetime` as a
calendar day (`Int`, the value of `.date()`) together with a
within-day tick (`Nat`), lexicographically ordered.  The database
session is an explicit state: lists of product and order rows plus the
autoincrement counters; `db.get(Model, id)` is `List.find?` on the id,
`commit`/`refresh` are the identity on this state.
-/

namespace InvSys

/-- A Python `datetime`: `day` is the value of `.date()` (days since an
arbitrary epoch), `tick` the time within the day. -/
structure DateTime where
  day : Int
  tick : Nat
deriving DecidableEq, Repr

/-- `a <= b` on datetimes (lexicographic: by day, then within-day time). -/
def DateTime.le (a b : DateTime) : Bool :=
  decide (a.day < b.day) || (decide (a.day = b.day) && decide (a.tick ≤ b.tick))

/-- `models.Product`: id, organization_id, name, optional description,
price, nullable quantity, created_at (nullable here because
`create_product` passes the caller-supplied `Optional[datetime]` through). -/
structure Product where
  id : Int
  organization_id : Int
  name : String
  description : Option String
  price : Rat
  quantity : Option Int
  created_at : Option DateTime
deriving DecidableEq, Repr

/-- `models.Order`: exactly the columns declared on the `Order` table —
id, organization_id, product_id, quantity, order_date.  The table
declares no `is_fulfilled` and no `total_price` column. -/
structure Order where
  id : Int
  organization_id : Int
  product_id : Int
  quantity : Int
  order_date : DateTime
deriving DecidableEq, Repr

/-- `schemas.ProductCreate`. -/
structure ProductCreate where
  name : String
  description : Option String
  price : Rat
  quantity : Int
  created_at : Option DateTime
deriving DecidableEq, Repr

/-- `schemas.ProductUpdate`: partial update, a `none` field is "not
supplied" and is dropped by `model_dump(exclude_unset=True)`. -/
structure ProductUpdate where
  name : Option String
  description : Option String
  price : Option Rat
  quantity : Option Int
deriving DecidableEq, Repr

/-- `schemas.OrderCreate`: the caller may supply `total_price` and
`is_fulfilled`; `order_date` defaults to now when omitted. -/
structure OrderCreate where
  product_id : Int
  quantity : Int
  order_date : Option DateTime
  total_price : Option Rat
  is_fulfilled : Bool
deriving DecidableEq, Repr

/-- `schemas.OrderRead`: the response schema for orders.  It requires
`total_price` and `is_fulfilled`, fields the `Order` table does not store. -/
structure OrderRead where
  id : Int
  product_id : Int
  organization_id : Int
  quantity : Int
  order_date : DateTime
  total_price : Rat
  is_fulfilled : Bool
deriving DecidableEq, Repr

/-- The database state seen by `crud.py`: the product and order tables
plus the autoincrement counters for their primary keys. -/
structure DB where
  products : List Product
  orders : List Order
  next_product_id : Int
  next_order_id : Int
deriving DecidableEq, Repr

/-- `db.get(Product, product_id)`. -/
def DB.getProduct (db : DB) (product_id : Int) : Option Product :=
  db.products.find? (fun p => p.id == product_id)

/-- `db.get(Order, order_id)`. -/
def DB.getOrder (db : DB) (order_id : Int) : Option Order :=
  db.orders.find? (fun o => o.id == order_id)

/-- Writing a modified product row back (`db.add(product); db.commit()`):
the row with the same primary key is replaced in place. -/
def DB.putProduct (db : DB) (p : Product) : DB :=
  { db with products := db.products.map (fun q => if q.id == p.id then p else q) }

/-- `crud.create_product`: builds a `Product` from the payload plus the
caller's organization id and inserts it (primary key from autoincrement). -/
def create_product (db : DB) (org_id : Int) (data : ProductCreate) :
    Product × DB :=
  let product : Product :=
    { id := db.next_product_id
      organization_id := org_id
      name := data.name
      description := data.description
      price := data.price
      quantity := some data.quantity
      created_at := data.created_at }
  (product,
    { db with
        products := db.products ++ [product]
        next_product_id := db.next_product_id + 1 })

/-- `crud.list_products`: all products with the caller's organization id. -/
def list_products (db : DB) (org_id : Int) : List Product :=
  db.products.filter (fun p => p.organization_id == org_id)

/-- `data.model_dump(exclude_unset=True)` followed by `setattr` for each
supplied field of a `ProductUpdate`. -/
def applyProductUpdate (p : Product) (data : ProductUpdate) : Product :=
  { p with
      name := data.name.getD p.name
      description := match data.description with
        | some d => some d
        | none => p.description
      price := data.price.getD p.price
      quantity := match data.quantity with
        | some q => some q
        | none => p.quantity }

/-- `crud.update_product`: `db.get(Product, product_id)`; if absent or
owned by another organization, return `None` and leave the state alone;
otherwise overwrite the supplied fields and commit. -/
def update_product (db : DB) (org_id : Int) (product_id : Int)
    (data : ProductUpdate) : Option Product × DB :=
  match db.getProduct product_id with
  | none => (none, db)
  | some product =>
    if product.organization_id ≠ org_id then (none, db)
    else
      let product' := applyProductUpdate product data
      (some product', db.putProduct product')

/-- `crud.delete_product`: same lookup and scoping check; `False` when the
product is absent or cross-organization, otherwise the row is removed. -/
def delete_product (db : DB) (org_id : Int) (product_id : Int) :
    Bool × DB :=
  match db.getProduct product_id with
  | none => (false, db)
  | some product =>
    if product.organization_id ≠ org_id then (false, db)
    else
      (true,
        { db with
            products := db.products.filter (fun q => ¬(q.id == product.id)) })

/-- The in-memory object `crud.create_order` returns: the row that was
inserted into the `Order` table, together with the two transient
attributes set on the object but backed by no column —
`is_fulfilled` (assigned by the stock check) and `total_price`
(passed through from the caller's payload, never computed). -/
structure OrderResult where
  order : Order
  is_fulfilled : Bool
  total_price : Option Rat
deriving DecidableEq, Repr

/-- The message of the `ValueError` raised by `crud.create_order`. -/
def productNotFoundMsg : String :=
  "Product not found or does not belong to the organization."

/-- `crud.create_order`: build the order from the payload, load the
product by bare id; absent or cross-organization raises `ValueError`.
Otherwise, if the product's quantity is non-null and at least the order
quantity, mark fulfilled and decrement the stock; else mark unfulfilled
and leave the stock untouched.  The order row is inserted either way.
`now` stands for `datetime.now()`, used when the payload has no
`order_date`. -/
def create_order (db : DB) (org_id : Int) (data : OrderCreate)
    (now : DateTime) : Except String (OrderResult × DB) :=
  let order : Order :=
    { id := db.next_order_id
      organization_id := org_id
      product_id := data.product_id
      quantity := data.quantity
      order_date := data.order_date.getD now }
  match db.getProduct data.product_id with
  | none => .error productNotFoundMsg
  | some product =>
    if product.organization_id ≠ org_id then .error productNotFoundMsg
    else
      let fulfilled := match product.quantity with
        | some q => decide (q ≥ order.quantity)
        | none => false
      let db' :=
        if fulfilled then
          db.putProduct
            { product with quantity := product.quantity.map (· - order.quantity) }
        else db
      .ok
        ({ order := order, is_fulfilled := fulfilled,
           total_price := data.total_price },
          { db' with
              orders := db'.orders ++ [order]
              next_order_id := db.next_order_id + 1 })

/-- `crud.list_orders`: all orders with the caller's organization id. -/
def list_orders (db : DB) (org_id : Int) : List Order :=
  db.orders.filter (fun o => o.organization_id == org_id)

/-- `crud.get_order`: select by organization id and order id; raises
`ValueError("Order not found")` when nothing matches. -/
def get_order (db : DB) (org_id : Int) (order_id : Int) :
    Except String Order :=
  match db.orders.find?
      (fun o => o.organization_id == org_id && o.id == order_id) with
  | some order => .ok order
  | none => .error "Order not found"

/-- `crud.update_order_fulfillment_status`: load the order by bare id,
check its organization, load its product, check that organization; then
rerun the same stock-check-and-decrement rule as `create_order`,
unconditionally.  The fulfilled flag lives only on the in-memory object
(no column), so the stored order rows are unchanged. -/
def update_order_fulfillment_status (db : DB) (org_id : Int)
    (order_id : Int) : Option (Order × Bool) × DB :=
  match db.getOrder order_id with
  | none => (none, db)
  | some order =>
    if order.organization_id ≠ org_id then (none, db)
    else
      match db.getProduct order.product_id with
      | none => (none, db)
      | some product =>
        if product.organization_id ≠ org_id then (none, db)
        else
          let fulfilled := match product.quantity with
            | some q => decide (q ≥ order.quantity)
            | none => false
          let db' :=
            if fulfilled then
              db.putProduct
                { product with
                    quantity := product.quantity.map (· - order.quantity) }
            else db
          (some (order, fulfilled), db')

/-! ### Analytics layer

`repo/analytics_repo.py` queries `Order.total_price`, a column the
`Order` table in `models.py` does not declare (the repository's own
docstring says it "Assumes Order has: id, created_at, quantity, price,
organization_id").  The row type those queries run over is therefore
modelled separately, with the missing monetary column taken from the
spec. -/

/-- Modelled from the spec: the order row as read by the analytics
queries.  `models.Order` declares no `total_price` column, yet
`get_sales_trend` and `get_sales_avg` select `Order.total_price`; per
the spec the aggregator "sums order total_price grouped by calendar day
of order timestamp", with missing `total_price` treated as 0 by
`coalesce`, so the column is modelled as a nullable monetary amount. -/
structure OrderRow where
  organization_id : Int
  order_date : DateTime
  total_price : Option Rat
deriving DecidableEq, Repr

/-- One step of the SQL `SUM` aggregate: combine a cell with the
running value, skipping `NULL` cells. -/
def sqlSumCons (x r : Option Rat) : Option Rat :=
  match x, r with
  | none, r => r
  | some a, none => some a
  | some a, some b => some (a + b)

/-- The SQL `SUM` aggregate over a nullable column: `NULL` values are
skipped, and the sum of no non-`NULL` values is `NULL`. -/
def sqlSum : List (Option Rat) → Option Rat
  | [] => none
  | x :: xs => sqlSumCons x (sqlSum xs)

/-- The row filter shared by the sales queries: the caller's
organization and `start <= Order.order_date <= end`. -/
def inTrendRange (org_id : Int) (start stop : DateTime) (o : OrderRow) :
    Bool :=
  o.organization_id == org_id && DateTime.le start o.order_date
    && DateTime.le o.order_date stop

/-- `AnalyticsRepository.get_sales_trend`: rows in range, grouped by
`date(Order.order_date)`, each group summed; one `(date, SUM)` row per
distinct day with at least one matching order. -/
def get_sales_trend (rows : List OrderRow) (org_id : Int)
    (start stop : DateTime) : List (Int × Option Rat) :=
  let matching := rows.filter (inTrendRange org_id start stop)
  let days := (matching.map (fun o => o.order_date.day)).dedup
  days.map (fun d =>
    (d, sqlSum ((matching.filter (fun o => o.order_date.day == d)).map
      (fun o => o.total_price))))

/-- Modelled from the spec: `Dataset`, imported by
`analytics_service.py` from `src.schemas` but not defined there; a
chart dataset is a label plus a list of values (§4.3). -/
structure Dataset where
  label : String
  data : List Rat
deriving DecidableEq, Repr

/-- Modelled from the spec: `SalesTrendResponse`, imported by
`analytics_service.py` from `src.schemas` but not defined there; chart
labels (one per calendar day, modelled by the day number that
`d.isoformat()` renders) plus datasets. -/
structure SalesTrendResponse where
  labels : List Int
  datasets : List Dataset
deriving DecidableEq, Repr

/-- `[start.date() + timedelta(days=i) for i in range(days)]` with
`days = (end.date() - start.date()).days + 1` (empty when `days <= 0`). -/
def dateIndex (start stop : DateTime) : List Int :=
  (List.range (stop.day - start.day + 1).toNat).map
    (fun i => start.day + Int.ofNat i)

/-- `AnalyticsService.sales_trend_chart`: fetch the per-day rows, build
the full day index, fill gaps with 0.  `float(total_sales)` raises on a
`NULL` sum (every order of some day having `NULL` total_price), which is
modelled as `none`. -/
def sales_trend_chart (rows : List OrderRow) (org_id : Int)
    (start stop : DateTime) : Option SalesTrendResponse :=
  let raw := get_sales_trend rows org_id start stop
  if raw.any (fun en => en.2.isNone) then none
  else
    let labels := dateIndex start stop
    let data := labels.map (fun d =>
      match raw.find? (fun en => en.1 == d) with
      | some en => en.2.getD 0
      | none => 0)
    some { labels := labels, datasets := [{ label := "sales", data := data }] }

/-- Lexicographic comparison of character lists by code point — the
text ordering `ORDER BY` applies to product names. -/
def charListLe : List Char → List Char → Bool
  | [], _ => true
  | _ :: _, [] => false
  | a :: as, b :: bs =>
    if a.val < b.val then true
    else if b.val < a.val then false
    else charListLe as bs

/-- Lexicographic `<=` on strings by code point. -/
def strLe (a b : String) : Bool := charListLe a.data b.data

/-- Insertion of a product into a name-sorted list (ascending). -/
def insertByName (p : Product) : List Product → List Product
  | [] => [p]
  | q :: qs =>
    if strLe p.name q.name then p :: q :: qs
    else q :: insertByName p qs

/-- `ORDER BY Product.name` ascending. -/
def sortByName : List Product → List Product
  | [] => []
  | p :: ps => insertByName p (sortByName ps)

/-- `AnalyticsRepository.get_inventory_levels`: the organization's
products ordered by name; rows whose quantity is `NULL` are dropped by
the `if row[1] is not None` comprehension filter. -/
def get_inventory_levels (products : List Product) (org_id : Int) :
    List (String × Int) :=
  let rows := sortByName (products.filter (fun p => p.organization_id == org_id))
  rows.filterMap (fun p => p.quantity.map (fun q => (p.name, q)))

/-- Modelled from the spec: `InventoryResponse`, imported by
`analytics_service.py` from `src.schemas` but not defined there; chart
labels plus quantity datasets (§4.3). -/
structure InventoryResponse where
  labels : List String
  datasets : List (String × List Int)
deriving DecidableEq, Repr

/-- `AnalyticsService.inventory_chart`: `labels` holds only the first
returned product's name (`name, _ = raw[0]; labels = [name]`), empty
when there are no rows, while `data` lists every returned quantity. -/
def inventory_chart (products : List Product) (org_id : Int) :
    InventoryResponse :=
  let raw := get_inventory_levels products org_id
  let labels := match raw with
    | [] => []
    | (name, _) :: _ => [name]
  let data := raw.map (fun en => en.2)
  { labels := labels, datasets := [("inventory", data)] }

/-- `AnalyticsRepository.get_sales_avg`: selects
`coalesce(Order.total_price, 0)` for each order in range — no
aggregate — and calls `.one()`, which raises `NoResultFound` on zero
rows and `MultipleResultsFound` on more than one. -/
def get_sales_avg (rows : List OrderRow) (org_id : Int)
    (start stop : DateTime) : Except String Rat :=
  match rows.filter (inTrendRange org_id start stop) with
  | [] => .error "NoResultFound"
  | [o] => .ok (o.total_price.getD 0)
  | _ => .error "MultipleResultsFound"

/-- `AnalyticsService.sales_avg`: wraps the repository value in a
single-element dataset. -/
def sales_avg (rows : List OrderRow) (org_id : Int)
    (start stop : DateTime) : Except String Dataset :=
  (get_sales_avg rows org_id start stop).map
    (fun v => { label := "avg_sales", data := [v] })

/-! ### Concrete example states used by witnesses and counterexamples -/

/-- Day 0, midnight. -/
def t0 : DateTime := ⟨0, 0⟩

/-- The spec's §8 example product: price 10.0, stock 5, organization 1. -/
def exP : Product :=
  { id := 1, organization_id := 1, name := "Widget", description := none,
    price := 10, quantity := some 5, created_at := none }

/-- A one-product database for organization 1. -/
def exDb : DB := { products := [exP], orders := [], next_product_id := 2,
                   next_order_id := 1 }

/-- An order payload for 3 units of product 1, nothing else supplied. -/
def exOrderData : OrderCreate :=
  { product_id := 1, quantity := 3, order_date := some t0,
    total_price := none, is_fulfilled := false }

/-- An order payload asking for zero units of product 1. -/
def zeroOrderData : OrderCreate :=
  { product_id := 1, quantity := 0, order_date := some t0,
    total_price := none, is_fulfilled := false }

/-- The example product with its stock exhausted. -/
def exPEmpty : Product := { exP with quantity := some 0 }

/-- The example database with no stock left. -/
def exDbEmpty : DB :=
  { products := [exPEmpty], orders := [], next_product_id := 2,
    next_order_id := 1 }

/-- An order payload in which the caller even supplies `total_price`
and `is_fulfilled`. -/
def pushyOrderData : OrderCreate :=
  { product_id := 1, quantity := 3, order_date := some t0,
    total_price := some 99, is_fulfilled := true }

/-- Every product row with non-null quantity has quantity ≥ 0 (a null
quantity reads as 0 here, which is also ≥ 0). -/
abbrev nonnegStock (db : DB) : Prop :=
  ∀ p ∈ db.products, 0 ≤ p.quantity.getD 0

/-- The orders of one calendar day among those `get_sales_trend`
selects: in the organization, in `[start, stop]`, dated on day `d`. -/
def dayGroup (rows : List OrderRow) (org_id : Int) (start stop : DateTime)
    (d : Int) : List OrderRow :=
  (rows.filter (inTrendRange org_id start stop)).filter
    (fun o => o.order_date.day == d)

/-- The sales total of one calendar day: the sum of `total_price` over
that day's selected orders (`NULL` read as 0; an empty day sums to 0). -/
def daySum (rows : List OrderRow) (org_id : Int) (start stop : DateTime)
    (d : Int) : Rat :=
  ((dayGroup rows org_id start stop d).map (fun o => o.total_price.getD 0)).sum

/-- Products for the inventory-chart evaluation: two tracked products
and one with untracked (null) stock, all in organization 1. -/
def invProducts : List Product :=
  [{ id := 1, organization_id := 1, name := "A", description := none,
     price := 1, quantity := some 1, created_at := none },
   { id := 2, organization_id := 1, name := "B", description := none,
     price := 1, quantity := some 2, created_at := none },
   { id := 3, organization_id := 1, name := "C", description := none,
     price := 1, quantity := none, created_at := none }]

/-- Two orders of organization 1 on day 0, priced 3 and 4. -/
def twoSalesRows : List OrderRow :=
  [{ organization_id := 1, order_date := t0, total_price := some 3 },
   { organization_id := 1, order_date := t0, total_price := some 4 }]

/-- A single order of organization 1 on day 0, priced 5. -/
def oneSalesRow : OrderRow :=
  { organization_id := 1, order_date := t0, total_price := some 5 }

/-- A stocked database (quantity 10) holding an order row for 3 units. -/
def exOrderRow : Order :=
  { id := 1, organization_id := 1, product_id := 1, quantity := 3,
    order_date := t0 }

/-- The database for the C5 witness. -/
def exDbWithOrder : DB :=
  { products := [{ exP with quantity := some 10 }], orders := [exOrderRow],
    next_product_id := 2, next_order_id := 2 }

/-- Three orders of organization 1: two on day 0 (prices 3 and 4),
none on day 1, one on day 2 (price 5). -/
def trendRows : List OrderRow :=
  [{ organization_id := 1, order_date := t0, total_price := some 3 },
   { organization_id := 1, order_date := ⟨0, 5⟩, total_price := some 4 },
   { organization_id := 1, order_date := ⟨2, 0⟩, total_price := some 5 }]


/-! ### C1 — fulfilled flag and stock decrement in `create_order` -/

/-- C1: for a `create_order` call whose product exists and belongs to the
caller's organization — whatever `is_fulfilled` the caller supplied in
the payload — the call succeeds, the returned order's `is_fulfilled` is
true exactly when the product's quantity is non-null and at least the
requested quantity, in which case the product's quantity is decremented
by the requested quantity; otherwise the flag is false and the product
table is untouched.  The fulfilled condition mentions only the stock
and the requested quantity, so the flag is never taken from the caller. -/
theorem create_order_fulfilled_iff_stock (db : DB) (org_id : Int)
    (data : OrderCreate) (now : DateTime) (p : Product)
    (hp : db.getProduct data.product_id = some p)
    (horg : p.organization_id = org_id) :
    ∃ res db', create_order db org_id data now = .ok (res, db')
      ∧ (res.is_fulfilled = true ↔
          ∃ q, p.quantity = some q ∧ data.quantity ≤ q)
      ∧ (res.is_fulfilled = true →
          db'.products = db.products.map (fun x =>
            if x.id == p.id then
              { p with quantity := p.quantity.map (· - data.quantity) }
            else x))
      ∧ (res.is_fulfilled = false → db'.products = db.products) := by
  unfold create_order
  rw [hp]
  simp only [horg, ne_eq, not_true_eq_false, if_false]
  cases hq : p.quantity with
  | none =>
    refine ⟨_, _, rfl, ?_, ?_, ?_⟩
    · simp
    · intro h; simp at h
    · intro _; rfl
  | some q =>
    by_cases hge : data.quantity ≤ q
    · simp only [ge_iff_le, hge, decide_eq_true_eq, if_true, decide_eq_true hge]
      refine ⟨_, _, rfl, ?_, ?_, ?_⟩
      · exact iff_of_true rfl ⟨q, rfl, hge⟩
      · intro _
        simp [DB.putProduct]
      · intro h; simp at h
    · simp only [ge_iff_le, decide_eq_false hge, if_false, Bool.false_eq_true]
      refine ⟨_, _, rfl, ?_, ?_, ?_⟩
      · constructor
        · intro h; simp at h
        · rintro ⟨q', hq', hle⟩
          cases hq'
          exact absurd hle hge
      · intro h; simp at h
      · intro _; rfl

/-- C1 witness: instantiated at the example database (stock 5, request
3): the order is fulfilled and the stock drops to 2. -/
theorem create_order_fulfilled_iff_stock_witness :
    ∃ res db', create_order exDb 1 exOrderData t0 = .ok (res, db')
      ∧ (res.is_fulfilled = true ↔
          ∃ q, exP.quantity = some q ∧ exOrderData.quantity ≤ q)
      ∧ (res.is_fulfilled = true →
          db'.products = exDb.products.map (fun x =>
            if x.id == exP.id then
              { exP with
                  quantity := exP.quantity.map (· - exOrderData.quantity) }
            else x))
      ∧ (res.is_fulfilled = false → db'.products = exDb.products) :=
  create_order_fulfilled_iff_stock exDb 1 exOrderData t0 exP rfl rfl

/-! ### C2 — `total_price` is never computed by `create_order` -/

/-- C2 (code evaluated at the failing input): `crud.create_order` never
assigns `order.total_price`; the returned order carries the payload's
`total_price` unchanged.  At the spec's own §8 scenario — product
priced 10.0 with stock 5, order for 3 units, no caller-supplied
`total_price` — the spec requires `total_price == 30.0`, but the result
carries `none`, not `some (3 * 10)`. -/
theorem create_order_total_price_not_computed :
    ∃ res db', create_order exDb 1 exOrderData t0 = .ok (res, db')
      ∧ res.total_price = exOrderData.total_price
      ∧ res.total_price = none
      ∧ res.total_price ≠ some (3 * exP.price) :=
  ⟨{ order := { id := 1, organization_id := 1, product_id := 1,
                quantity := 3, order_date := t0 },
     is_fulfilled := true, total_price := none },
   { products := [{ exP with quantity := some 2 }],
     orders := [{ id := 1, organization_id := 1, product_id := 1,
                  quantity := 3, order_date := t0 }],
     next_product_id := 2, next_order_id := 2 },
   rfl, rfl, rfl, nofun⟩

/-! ### C3 — tenant isolation: absent and cross-organization collapse -/

/-- C3: whenever the target product id is absent or resolves to a
product of another organization, `update_product` returns `None`,
`delete_product` returns `False`, and `create_order` raises the one
collapsed "not accessible" `ValueError` — the very same outcomes in
both cases — and none of them changes the stored state (no order row is
created, no product or order row is modified). -/
theorem tenant_isolation_not_accessible (db : DB) (org_id product_id : Int)
    (upd : ProductUpdate) (data : OrderCreate) (now : DateTime)
    (h : db.getProduct product_id = none ∨
         ∃ p, db.getProduct product_id = some p ∧ p.organization_id ≠ org_id)
    (hd : data.product_id = product_id) :
    update_product db org_id product_id upd = (none, db)
    ∧ delete_product db org_id product_id = (false, db)
    ∧ create_order db org_id data now = .error productNotFoundMsg := by
  rcases h with h | ⟨p, hp, hporg⟩
  · refine ⟨?_, ?_, ?_⟩
    · unfold update_product; rw [h]
    · unfold delete_product; rw [h]
    · unfold create_order; rw [hd, h]
  · refine ⟨?_, ?_, ?_⟩
    · unfold update_product; rw [hp]; simp [hporg]
    · unfold delete_product; rw [hp]; simp [hporg]
    · unfold create_order; rw [hd, hp]; simp [hporg]

/-- C3 witness: a caller from organization 2 against the example
product owned by organization 1 gets the collapsed outcomes. -/
theorem tenant_isolation_not_accessible_witness :
    update_product exDb 2 1 ⟨none, none, none, none⟩ = (none, exDb)
    ∧ delete_product exDb 2 1 = (false, exDb)
    ∧ create_order exDb 2 exOrderData t0 = .error productNotFoundMsg :=
  tenant_isolation_not_accessible exDb 2 1 ⟨none, none, none, none⟩
    exOrderData t0 (Or.inr ⟨exP, rfl, by decide⟩) rfl

/-! ### C6 — no quantity validation in `create_order` -/

/-- C6 counterexample: a `create_order` call requesting quantity 0
against the example database does not fail at all — it returns
success, appends an order row, and even marks it fulfilled (the stock
check `5 >= 0` passes and the stock is decremented by 0). -/
theorem create_order_zero_quantity_cex :
    (create_order exDb 1 zeroOrderData t0).toOption.map
        (fun r => (r.2.orders.length, r.1.is_fulfilled, r.1.order.quantity))
      = some (1, true, 0) := rfl

/-- C6 amended: `create_order` performs no validation of the requested
quantity; for any payload with quantity ≤ 0 whose product is in the
caller's organization, the call succeeds and the order row is inserted
(the stock rule is applied to the non-positive quantity as-is). -/
theorem create_order_accepts_nonpositive (db : DB) (org_id : Int)
    (data : OrderCreate) (now : DateTime) (p : Product)
    (hp : db.getProduct data.product_id = some p)
    (horg : p.organization_id = org_id)
    (_hq : data.quantity ≤ 0) :
    ∃ res db', create_order db org_id data now = .ok (res, db')
      ∧ db'.orders = db'.orders.dropLast ++ [res.order]
      ∧ res.order.quantity = data.quantity
      ∧ db'.orders.length = db.orders.length + 1 := by
  unfold create_order
  rw [hp]
  simp only [horg, ne_eq, not_true_eq_false, if_false]
  refine ⟨_, _, rfl, ?_, rfl, ?_⟩
  · cases hfb : (match p.quantity with
      | some q => decide (q ≥ data.quantity)
      | none => false) <;> simp [hfb]
  · cases hfb : (match p.quantity with
      | some q => decide (q ≥ data.quantity)
      | none => false) <;> simp [hfb, DB.putProduct]

/-- C6 witness: the amended statement at the zero-quantity payload. -/
theorem create_order_accepts_nonpositive_witness :
    ∃ res db', create_order exDb 1 zeroOrderData t0 = .ok (res, db')
      ∧ db'.orders = db'.orders.dropLast ++ [res.order]
      ∧ res.order.quantity = zeroOrderData.quantity
      ∧ db'.orders.length = exDb.orders.length + 1 :=
  create_order_accepts_nonpositive exDb 1 zeroOrderData t0 exP rfl rfl
    (by decide)

/-! ### C10 — the Order table stores none of the derived values -/

/-- C10: the `Order` table stores exactly id, organization_id,
product_id, quantity and order_date.  Running the same order payload
against a stocked and an out-of-stock database yields opposite
`is_fulfilled` flags on the returned in-memory objects, yet the stored
order rows are identical — fully determined by the five columns — and
`get_order`/`list_orders` return exactly that bare row in both worlds,
so the derived `total_price`/`is_fulfilled` demanded by the
`OrderRead` schema are not recoverable from the store. -/
theorem order_table_lacks_derived_columns :
    ∃ r1 db1 r2 db2,
      create_order exDb 1 pushyOrderData t0 = .ok (r1, db1)
      ∧ create_order exDbEmpty 1 pushyOrderData t0 = .ok (r2, db2)
      ∧ r1.is_fulfilled = true
      ∧ r2.is_fulfilled = false
      ∧ r1.order = r2.order
      ∧ r1.order = { id := 1, organization_id := 1, product_id := 1,
                     quantity := 3, order_date := t0 }
      ∧ get_order db1 1 1 = .ok r1.order
      ∧ get_order db2 1 1 = .ok r1.order
      ∧ list_orders db1 1 = [r1.order]
      ∧ list_orders db2 1 = [r1.order] :=
  ⟨{ order := { id := 1, organization_id := 1, product_id := 1,
                quantity := 3, order_date := t0 },
     is_fulfilled := true, total_price := some 99 },
   { products := [{ exP with quantity := some 2 }],
     orders := [{ id := 1, organization_id := 1, product_id := 1,
                  quantity := 3, order_date := t0 }],
     next_product_id := 2, next_order_id := 2 },
   { order := { id := 1, organization_id := 1, product_id := 1,
                quantity := 3, order_date := t0 },
     is_fulfilled := false, total_price := some 99 },
   { products := [exPEmpty],
     orders := [{ id := 1, organization_id := 1, product_id := 1,
                  quantity := 3, order_date := t0 }],
     next_product_id := 2, next_order_id := 2 },
   rfl, rfl, rfl, rfl, rfl, rfl, rfl, rfl, rfl, rfl⟩

/-! ### C4 — non-negativity of stock -/

/-- Replacing one row of a non-negative product table by a row that is
itself non-negative keeps every row non-negative. -/
theorem nonneg_map_replace (l : List Product) (p' : Product)
    (h : ∀ x ∈ l, 0 ≤ x.quantity.getD 0) (hp' : 0 ≤ p'.quantity.getD 0) :
    ∀ x ∈ l.map (fun z => if z.id == p'.id then p' else z),
      0 ≤ x.quantity.getD 0 := by
  intro x hx
  rcases List.mem_map.mp hx with ⟨y, hy, rfl⟩
  by_cases hid : (y.id == p'.id) = true
  · simpa [hid] using hp'
  · simpa [hid] using h y hy

/-- C4 counterexample: `update_product` writes the caller-supplied
quantity with no check.  Starting from the example database — whose one
product has quantity 5, so `nonnegStock` holds — an update with
`quantity = -1` succeeds and leaves the table with a negative non-null
quantity. -/
theorem update_product_negative_quantity_cex :
    nonnegStock exDb
    ∧ ((update_product exDb 1 1 ⟨none, none, none, some (-1)⟩).1.map
        (fun p => p.quantity)) = some (some (-1))
    ∧ ¬ nonnegStock (update_product exDb 1 1 ⟨none, none, none, some (-1)⟩).2 := by
  refine ⟨by decide, rfl, ?_⟩
  intro h
  have := h { exP with quantity := some (-1) } (by decide)
  simp [exP] at this

/-- C4 amended: the two order-engine operations (`create_order` and
`update_order_fulfillment_status`) do preserve non-negativity of every
non-null product quantity — the decrement is guarded by the stock
check — but the catalog operations validate nothing:
`create_product` stores the caller's quantity verbatim (and
`update_product` overwrites with it, see the counterexample). -/
theorem order_engine_preserves_nonneg (db : DB) (org_id : Int)
    (data : OrderCreate) (now : DateTime) (oid : Int)
    (h : nonnegStock db) :
    (∀ res db', create_order db org_id data now = .ok (res, db') →
      nonnegStock db')
    ∧ nonnegStock (update_order_fulfillment_status db org_id oid).2
    ∧ (∀ pdata : ProductCreate,
        ((create_product db org_id pdata).1).quantity = some pdata.quantity) := by
  refine ⟨?_, ?_, fun _ => rfl⟩
  · intro res db' heq
    unfold create_order at heq
    cases hgp : db.getProduct data.product_id with
    | none => rw [hgp] at heq; exact absurd heq (by simp)
    | some p =>
      rw [hgp] at heq
      by_cases horg : p.organization_id = org_id
      · simp only [horg, ne_eq, not_true_eq_false, if_false] at heq
        rw [Except.ok.injEq, Prod.mk.injEq] at heq
        obtain ⟨-, hdb⟩ := heq
        subst hdb
        cases hq : p.quantity with
        | none =>
          simp only [hq] at *
          exact h
        | some q =>
          by_cases hge : data.quantity ≤ q
          · simp only [hq, decide_eq_true (show q ≥ data.quantity from hge),
              if_true]
            intro x hx
            refine nonneg_map_replace db.products _ h ?_ x hx
            show (0 : Int) ≤ q - data.quantity
            omega
          · simp only [hq, decide_eq_false
              (show ¬q ≥ data.quantity from hge), if_false]
            exact h
      · simp only [ne_eq, horg, not_false_eq_true, if_true] at heq
        exact absurd heq (by simp)
  · unfold update_order_fulfillment_status
    cases hgo : db.getOrder oid with
    | none => exact h
    | some o =>
      by_cases horg : o.organization_id = org_id
      · simp only [horg, ne_eq, not_true_eq_false, if_false]
        cases hgp : db.getProduct o.product_id with
        | none => exact h
        | some p =>
          by_cases hporg : p.organization_id = org_id
          · simp only [hporg, ne_eq, not_true_eq_false, if_false]
            cases hq : p.quantity with
            | none => exact h
            | some q =>
              by_cases hge : o.quantity ≤ q
              · simp only [decide_eq_true (show q ≥ o.quantity from hge),
                  if_true]
                intro x hx
                refine nonneg_map_replace db.products _ h ?_ x hx
                show (0 : Int) ≤ q - o.quantity
                omega
              · simp only [decide_eq_false
                  (show ¬q ≥ o.quantity from hge), if_false]
                exact h
          · simp only [ne_eq, hporg, not_false_eq_true, if_true]
            exact h
      · simp only [ne_eq, horg, not_false_eq_true, if_true]
        exact h

/-- C4 witness: the amended preservation statement at the example
database. -/
theorem order_engine_preserves_nonneg_witness :
    (∀ res db', create_order exDb 1 exOrderData t0 = .ok (res, db') →
      nonnegStock db')
    ∧ nonnegStock (update_order_fulfillment_status exDb 1 1).2
    ∧ (∀ pdata : ProductCreate,
        ((create_product exDb 1 pdata).1).quantity = some pdata.quantity) :=
  order_engine_preserves_nonneg exDb 1 exOrderData t0 1 (by decide)

/-! ### C5 — `update_order_fulfillment_status` double-decrements -/

/-- Replacing, in a product table, the first row matching an id by a
row with the same id: the lookup afterwards returns the replacement. -/
theorem find?_map_replace (l : List Product) (pid : Int) (p p' : Product)
    (hfind : l.find? (fun x => x.id == pid) = some p)
    (hid : p'.id = p.id) :
    (l.map (fun z => if z.id == p'.id then p' else z)).find?
        (fun x => x.id == pid) = some p' := by
  have hpid : (p.id == pid) = true := by simpa using List.find?_some hfind
  induction l with
  | nil => simp at hfind
  | cons a l ih =>
    rw [List.map_cons]
    by_cases ha : (a.id == pid) = true
    · rw [List.find?_cons_of_pos (p := fun x : Product => x.id == pid) l ha] at hfind
      obtain rfl : a = p := by injection hfind
      rw [if_pos (show (a.id == p'.id) = true by simp [hid])]
      exact List.find?_cons_of_pos (p := fun x : Product => x.id == pid) _
        (show (p'.id == pid) = true by rw [hid]; exact hpid)
    · rw [List.find?_cons_of_neg (p := fun x : Product => x.id == pid) l ha] at hfind
      have ha' : ¬((a.id == p'.id) = true) := by
        intro hc
        apply ha
        rw [hid] at hc
        have h1 : a.id = p.id := by simpa using hc
        rw [h1]
        exact hpid
      rw [if_neg ha']
      rw [List.find?_cons_of_neg (p := fun x : Product => x.id == pid) _ ha]
      exact ih hfind

/-- C5: `update_order_fulfillment_status` reruns the full
stock-check-and-decrement unconditionally.  For an order of quantity
`r ≥ 0` on an in-organization product with non-null stock `q ≥ 2r`,
two consecutive calls each report the order fulfilled and each
decrement the stock by `r`, leaving `q - 2r`: the operation is not
idempotent. -/
theorem recompute_fulfillment_double_decrements (db : DB)
    (org_id oid : Int) (o : Order) (p : Product) (q : Int)
    (ho : db.getOrder oid = some o) (horg : o.organization_id = org_id)
    (hp : db.getProduct o.product_id = some p)
    (hporg : p.organization_id = org_id)
    (hq : p.quantity = some q) (hr : 0 ≤ o.quantity)
    (hstock : 2 * o.quantity ≤ q) :
    ∃ db1 db2,
      update_order_fulfillment_status db org_id oid = (some (o, true), db1)
      ∧ update_order_fulfillment_status db1 org_id oid = (some (o, true), db2)
      ∧ db2.getProduct o.product_id =
          some { p with quantity := some (q - 2 * o.quantity) } := by
  have hge1 : o.quantity ≤ q := by omega
  have h1 : update_order_fulfillment_status db org_id oid =
      (some (o, true), db.putProduct { p with quantity := some (q - o.quantity) }) := by
    unfold update_order_fulfillment_status
    rw [ho]
    simp only [horg, ne_eq, not_true_eq_false, if_false]
    rw [hp]
    simp only [hporg, ne_eq, not_true_eq_false, if_false]
    rw [hq]
    simp only [decide_eq_true (show q ≥ o.quantity from hge1), if_true]
    rfl
  have hp1 : (db.putProduct { p with quantity := some (q - o.quantity) }).getProduct
      o.product_id = some { p with quantity := some (q - o.quantity) } :=
    find?_map_replace db.products o.product_id p _ hp rfl
  have hge2 : o.quantity ≤ q - o.quantity := by omega
  have h2 : update_order_fulfillment_status
      (db.putProduct { p with quantity := some (q - o.quantity) }) org_id oid =
      (some (o, true),
        (db.putProduct { p with quantity := some (q - o.quantity) }).putProduct
          { p with quantity := some (q - o.quantity - o.quantity) }) := by
    unfold update_order_fulfillment_status
    rw [show (db.putProduct { p with quantity := some (q - o.quantity) }).getOrder
        oid = some o from ho]
    simp only [horg, ne_eq, not_true_eq_false, if_false]
    rw [hp1]
    simp only [hporg, ne_eq, not_true_eq_false, if_false]
    simp only [decide_eq_true (show q - o.quantity ≥ o.quantity from hge2),
      if_true]
    rfl
  refine ⟨_, _, h1, h2, ?_⟩
  rw [show q - 2 * o.quantity = q - o.quantity - o.quantity by ring]
  exact find?_map_replace
    (db.putProduct { p with quantity := some (q - o.quantity) }).products
    o.product_id { p with quantity := some (q - o.quantity) }
    { p with quantity := some (q - o.quantity - o.quantity) } hp1 rfl

/-- C5 witness: stock 10, order quantity 3 — two recomputes leave 4. -/
theorem recompute_fulfillment_double_decrements_witness :
    ∃ db1 db2,
      update_order_fulfillment_status exDbWithOrder 1 1 =
        (some (exOrderRow, true), db1)
      ∧ update_order_fulfillment_status db1 1 1 = (some (exOrderRow, true), db2)
      ∧ db2.getProduct exOrderRow.product_id =
          some { { exP with quantity := some 10 } with
                 quantity := some (10 - 2 * exOrderRow.quantity) } :=
  recompute_fulfillment_double_decrements exDbWithOrder 1 1 exOrderRow
    { exP with quantity := some 10 } 10 rfl rfl rfl rfl rfl (by decide)
    (by decide)

/-! ### C8 — inventory chart labels only the first product -/

/-- C8 (code evaluated at the failing input): the repository layer does
return one `(name, quantity)` pair per non-null-quantity product of the
organization, ordered by name ascending and omitting the null-quantity
product — but `inventory_chart` puts only the FIRST product's name into
`labels` while `data` carries every quantity, so labels and data have
lengths 1 and 2 here instead of matching index-for-index. -/
theorem inventory_chart_single_label_bug :
    get_inventory_levels invProducts 1 = [("A", 1), ("B", 2)]
    ∧ inventory_chart invProducts 1 =
        { labels := ["A"], datasets := [("inventory", [1, 2])] }
    ∧ (inventory_chart invProducts 1).labels.length = 1
    ∧ ((inventory_chart invProducts 1).datasets.map
        (fun ds => ds.2.length)) = [2] :=
  ⟨by decide, by decide, by decide, by decide⟩

/-! ### C9 — `get_sales_avg` is neither a sum nor an average -/

/-- C9 counterexample: with two matching orders (total prices 3 and 4)
the claimed coalesced sum would be 7, but `get_sales_avg` raises
`MultipleResultsFound`; with zero matching orders the claimed sum would
be 0, but it raises `NoResultFound`.  It returns a scalar only when
exactly one order matches. -/
theorem get_sales_avg_not_a_sum_cex :
    get_sales_avg twoSalesRows 1 t0 t0 = .error "MultipleResultsFound"
    ∧ get_sales_avg ([] : List OrderRow) 1 t0 t0 = .error "NoResultFound" :=
  ⟨rfl, rfl⟩

/-- C9 amended: `get_sales_avg` selects `coalesce(total_price, 0)` per
matching row with no aggregate and calls `.one()`: it returns the single
row's coalesced `total_price` when exactly one order of the organization
falls in `[start, stop]`, raises `NoResultFound` for zero matching
orders and `MultipleResultsFound` for more than one. -/
theorem get_sales_avg_characterization (rows : List OrderRow)
    (org_id : Int) (start stop : DateTime) :
    (∀ o, rows.filter (inTrendRange org_id start stop) = [o] →
        get_sales_avg rows org_id start stop = .ok (o.total_price.getD 0))
    ∧ (rows.filter (inTrendRange org_id start stop) = [] →
        get_sales_avg rows org_id start stop = .error "NoResultFound")
    ∧ (∀ o o' rest,
        rows.filter (inTrendRange org_id start stop) = o :: o' :: rest →
        get_sales_avg rows org_id start stop =
          .error "MultipleResultsFound") := by
  refine ⟨?_, ?_, ?_⟩
  · intro o h
    unfold get_sales_avg
    rw [h]
  · intro h
    unfold get_sales_avg
    rw [h]
  · intro o o' rest h
    unfold get_sales_avg
    rw [h]

/-- C9 witness: the single-row case applied to a concrete database —
one matching order priced 5 yields `.ok 5`. -/
theorem get_sales_avg_characterization_witness :
    get_sales_avg [oneSalesRow] 1 t0 t0 = .ok (oneSalesRow.total_price.getD 0) :=
  (get_sales_avg_characterization [oneSalesRow] 1 t0 t0).1 oneSalesRow rfl

/-! ### C7 — one data point per calendar day, gaps filled with 0 -/

/-- SQL `SUM` over a non-empty all-non-`NULL` column is the plain sum. -/
theorem sqlSum_all_some (l : List (Option Rat)) (hne : l ≠ [])
    (hs : ∀ x ∈ l, x.isSome) :
    sqlSum l = some ((l.map (fun x => x.getD 0)).sum) := by
  induction l with
  | nil => exact absurd rfl hne
  | cons x xs ih =>
    obtain ⟨a, rfl⟩ : ∃ a, x = some a := by
      have := hs x (by simp)
      exact Option.isSome_iff_exists.mp this
    cases xs with
    | nil => simp [sqlSum, sqlSumCons]
    | cons y ys =>
      have hxs := ih (by simp) (fun z hz => hs z (by simp [hz]))
      rw [show sqlSum (some a :: y :: ys)
          = sqlSumCons (some a) (sqlSum (y :: ys)) from rfl, hxs]
      simp [sqlSumCons, List.sum_cons]

/-- Looking a key up in a key-tagged map of a list of keys: it returns
the tagged value when the key occurs, `none` otherwise. -/
theorem find?_key_map (days : List Int) (f : Int → Option Rat) (d : Int) :
    (days.map (fun x => (x, f x))).find? (fun en => en.1 == d)
      = if d ∈ days then some (d, f d) else none := by
  induction days with
  | nil => simp
  | cons y ys ih =>
    rw [List.map_cons]
    by_cases hy : y = d
    · rw [List.find?_cons_of_pos (p := fun en : Int × Option Rat => en.1 == d)
        _ (by simp [hy]), if_pos (by simp [hy])]
      simp [hy]
    · rw [List.find?_cons_of_neg (p := fun en : Int × Option Rat => en.1 == d)
        _ (by simp [hy])]
      rw [ih]
      by_cases hd : d ∈ ys
      · rw [if_pos hd, if_pos (by simp [hd])]
      · rw [if_neg hd, if_neg (by
          simp only [List.mem_cons, not_or]
          exact ⟨fun h => hy h.symm, hd⟩)]

/-- C7: for `start <= stop` (and `total_price` non-`NULL` on the
selected orders, so the reference code's `float(total_sales)` cast
succeeds), `sales_trend_chart` returns exactly one label and one data
point per calendar day of `[start.date(), stop.date()]` —
`(stop.date() - start.date()).days + 1` many, so a single-day range
yields one point, never an empty series — where each day's value is
the sum of that day's selected orders' total prices, days without
orders contributing `daySum = 0` (sum over the empty group). -/
theorem sales_trend_chart_one_point_per_day (rows : List OrderRow)
    (org_id : Int) (start stop : DateTime)
    (hse : DateTime.le start stop = true)
    (hsome : ∀ o ∈ rows, inTrendRange org_id start stop o = true →
      o.total_price.isSome) :
    sales_trend_chart rows org_id start stop =
      some { labels := dateIndex start stop,
             datasets := [{ label := "sales",
                            data := (dateIndex start stop).map
                              (daySum rows org_id start stop) }] }
    ∧ (dateIndex start stop).length = (stop.day - start.day).toNat + 1 := by
  have hdays : start.day ≤ stop.day := by
    unfold DateTime.le at hse
    simp only [Bool.or_eq_true, Bool.and_eq_true, decide_eq_true_eq] at hse
    rcases hse with h | ⟨h, -⟩ <;> omega
  constructor
  case right =>
    simp only [dateIndex, List.length_map, List.length_range]
    omega
  -- abbreviations for the pieces of the computation
  have hgroupmem : ∀ d,
      d ∈ ((rows.filter (inTrendRange org_id start stop)).map
        (fun o => o.order_date.day)).dedup →
      dayGroup rows org_id start stop d ≠ [] := by
    intro d hd
    rw [List.mem_dedup] at hd
    rcases List.mem_map.mp hd with ⟨o, ho, hod⟩
    have : o ∈ dayGroup rows org_id start stop d := by
      rw [dayGroup, List.mem_filter]
      exact ⟨ho, by simp [hod]⟩
    exact List.ne_nil_of_mem this
  have hgroupsome : ∀ d, ∀ x ∈ (dayGroup rows org_id start stop d).map
      (fun o => o.total_price), x.isSome := by
    intro d x hx
    rcases List.mem_map.mp hx with ⟨o, ho, rfl⟩
    rw [dayGroup, List.mem_filter] at ho
    rcases ho with ⟨ho, -⟩
    rw [List.mem_filter] at ho
    exact hsome o ho.1 ho.2
  have hraw : ∀ d,
      d ∈ ((rows.filter (inTrendRange org_id start stop)).map
        (fun o => o.order_date.day)).dedup →
      sqlSum (((rows.filter (inTrendRange org_id start stop)).filter
          (fun o => o.order_date.day == d)).map (fun o => o.total_price))
        = some (daySum rows org_id start stop d) := by
    intro d hd
    show sqlSum ((dayGroup rows org_id start stop d).map
        (fun o => o.total_price)) = some (daySum rows org_id start stop d)
    rw [sqlSum_all_some _ (by
        intro hnil
        exact hgroupmem d hd (List.map_eq_nil_iff.mp hnil))
      (hgroupsome d)]
    rw [daySum, List.map_map]
    rfl
  unfold sales_trend_chart get_sales_trend
  simp only []
  rw [show (((rows.filter (inTrendRange org_id start stop)).map
        (fun o => o.order_date.day)).dedup.map (fun d =>
          (d, sqlSum (((rows.filter (inTrendRange org_id start stop)).filter
            (fun o => o.order_date.day == d)).map
              (fun o => o.total_price))))).any (fun en => en.2.isNone) = false
      from by
    rw [List.any_eq_false]
    intro en hen
    rcases List.mem_map.mp hen with ⟨d, hd, rfl⟩
    rw [hraw d hd]
    simp]
  simp only [Bool.false_eq_true, if_false]
  refine congrArg some ?_
  refine congrArg (fun data => SalesTrendResponse.mk (dateIndex start stop)
    [{ label := "sales", data := data }]) ?_
  refine List.map_congr_left ?_
  intro d _
  rw [show (((rows.filter (inTrendRange org_id start stop)).map
      (fun o => o.order_date.day)).dedup.map (fun x =>
        (x, sqlSum (((rows.filter (inTrendRange org_id start stop)).filter
          (fun o => o.order_date.day == x)).map
            (fun o => o.total_price))))).find? (fun en => en.1 == d)
      = if d ∈ ((rows.filter (inTrendRange org_id start stop)).map
          (fun o => o.order_date.day)).dedup then
          some (d, sqlSum (((rows.filter (inTrendRange org_id start stop)).filter
            (fun o => o.order_date.day == d)).map (fun o => o.total_price)))
        else none
      from find?_key_map _ _ d]
  by_cases hd : d ∈ ((rows.filter (inTrendRange org_id start stop)).map
      (fun o => o.order_date.day)).dedup
  · rw [if_pos hd, hraw d hd]
    rfl
  · rw [if_neg hd]
    have hempty : dayGroup rows org_id start stop d = [] := by
      rw [dayGroup, List.filter_eq_nil_iff]
      intro o ho hod
      apply hd
      rw [List.mem_dedup]
      exact List.mem_map.mpr ⟨o, ho, by simpa using hod⟩
    rw [show daySum rows org_id start stop d = 0 from by
      rw [daySum, hempty]; rfl]

/-- C7 witness: over `[day 0, day 2]` the chart has exactly three
points — 7 for day 0, 0 for the order-free day 1, 5 for day 2. -/
theorem sales_trend_chart_one_point_per_day_witness :
    sales_trend_chart trendRows 1 t0 ⟨2, 0⟩ =
      some { labels := dateIndex t0 ⟨2, 0⟩,
             datasets := [{ label := "sales",
                            data := (dateIndex t0 ⟨2, 0⟩).map
                              (daySum trendRows 1 t0 ⟨2, 0⟩) }] }
    ∧ (dateIndex t0 ⟨2, 0⟩).length = ((2 : Int) - (0 : Int)).toNat + 1 :=
  sales_trend_chart_one_point_per_day trendRows 1 t0 ⟨2, 0⟩ (by decide)
    (by decide)

end InvSys
